import Mathlib

/-!
Verification of the profile/portfolio editor (`src/pages/Potfolio.tsx`) and the
project-list fragment (`src/pages/client/ProjectsSection.tsx`) of the
tuttifrutti repository.

The React component state is embedded as an explicit `PageState` record; every
handler of the page becomes a pure state-transition function.  Remote query
results (`designerProfile`, `currentPortfolio`) are passed in as `Option`
values, matching the `null`/record distinction of the source.  Persistence
calls and `alert` calls are recorded in the state (`sentMutations`, `alerts`)
so that their occurrence and payload can be reasoned about.

JavaScript string primitives are modelled over the `List Char` view of
`String`, so that every definition evaluates by kernel reduction.
-/

namespace Tuttifrutti

/-- JavaScript `String.prototype.trim()`: drop leading and trailing
whitespace. -/
def jsTrim (s : String) : String :=
  ⟨((s.data.dropWhile Char.isWhitespace).reverse.dropWhile Char.isWhitespace).reverse⟩

/-- JavaScript `String.prototype.toLowerCase()` on the code points the page
compares (ASCII). -/
def jsToLower (s : String) : String :=
  ⟨s.data.map Char.toLower⟩

/-! ## Data model (the record types of `Potfolio.tsx`)

Record ids (`_id`, `designer_id`) are opaque in the page logic: the only use of
`_id` is the truthiness test for existence, which the surrounding `Option`
already models, so ids are omitted from the records. -/

/-- One entry of `social_links`: `{ platform: string; url: string }`. -/
structure SocialLink where
  platform : String
  url : String
deriving DecidableEq

/-- `DesignerRecord` (the fields the page reads): optional contact data. -/
structure DesignerRecord where
  contact_number : Option String
  address : Option String
deriving DecidableEq

/-- `PortfolioRecord` (the fields the page reads): all content optional. -/
structure PortfolioRecord where
  title : Option String
  description : Option String
  specialization : Option String
  skills : Option (List String)
  social_links : Option (List SocialLink)
deriving DecidableEq

/-- The `designerForm` local state. -/
structure DesignerForm where
  contact_number : String
  address : String
deriving DecidableEq

/-- The `portfolioForm` local state. -/
structure PortfolioForm where
  title : String
  description : String
  specialization : String
  skills : List String
  social_links : List SocialLink
deriving DecidableEq

/-- A persistence call issued by the page: `updateDesigner` or
`updatePortfolio`, with the exact payload of the call. -/
inductive Mutation where
  | updateDesigner (contact_number address : String)
  | updatePortfolio (title description specialization : String)
      (skills : List String) (social_links : List SocialLink)
deriving DecidableEq

/-- The component's local state: the two forms, the two pending inputs, the two
edit-mode flags, plus the log of issued mutations and alerts. -/
structure PageState where
  designerForm : DesignerForm
  portfolioForm : PortfolioForm
  newSkill : String
  newSocial : SocialLink
  editContact : Bool
  editPortfolio : Bool
  sentMutations : List Mutation
  alerts : List String
deriving DecidableEq

/-- The `useState` initial values of the component. -/
def initialState : PageState :=
  { designerForm := { contact_number := "", address := "" }
    portfolioForm :=
      { title := "", description := "", specialization := "", skills := [], social_links := [] }
    newSkill := ""
    newSocial := { platform := "", url := "" }
    editContact := false
    editPortfolio := false
    sentMutations := []
    alerts := [] }

/-! ## Handlers of `Potfolio.tsx` -/

/-- Typing into the skill input (`setNewSkill`). -/
def setNewSkill (st : PageState) (s : String) : PageState :=
  { st with newSkill := s }

/-- `addSkill`: `if (newSkill.trim() && !portfolioForm.skills.includes(newSkill.trim()))`
append `newSkill.trim()` and clear the input, else do nothing. -/
def addSkill (st : PageState) : PageState :=
  if jsTrim st.newSkill ≠ "" ∧ jsTrim st.newSkill ∉ st.portfolioForm.skills then
    { st with
        portfolioForm := { st.portfolioForm with
          skills := st.portfolioForm.skills ++ [jsTrim st.newSkill] }
        newSkill := "" }
  else st

/-- `removeSkill`: keep the skills whose string differs from the argument. -/
def removeSkill (st : PageState) (skill : String) : PageState :=
  { st with
      portfolioForm := { st.portfolioForm with
        skills := st.portfolioForm.skills.filter (fun s => s ≠ skill) } }

/-- Typing into the social-link inputs (`setNewSocial`). -/
def setNewSocial (st : PageState) (p u : String) : PageState :=
  { st with newSocial := { platform := p, url := u } }

/-- `addSocialLink`: `if (newSocial.platform.trim() && newSocial.url.trim())`
append the trimmed pair and reset the pending pair, else do nothing. -/
def addSocialLink (st : PageState) : PageState :=
  if jsTrim st.newSocial.platform ≠ "" ∧ jsTrim st.newSocial.url ≠ "" then
    { st with
        portfolioForm := { st.portfolioForm with
          social_links := st.portfolioForm.social_links ++
            [{ platform := jsTrim st.newSocial.platform, url := jsTrim st.newSocial.url }] }
        newSocial := { platform := "", url := "" } }
  else st

/-- JavaScript `Array.prototype.filter((_, i) => i !== index)`, written with an
explicit running position `n`. -/
def filterIdxNe {α : Type} (idx : Nat) : Nat → List α → List α
  | _, [] => []
  | n, a :: as =>
      if n ≠ idx then a :: filterIdxNe idx (n + 1) as else filterIdxNe idx (n + 1) as

/-- `removeSocialLink`: drop the entry whose position equals `index`. -/
def removeSocialLink (st : PageState) (index : Nat) : PageState :=
  { st with
      portfolioForm := { st.portfolioForm with
        social_links := filterIdxNe index 0 st.portfolioForm.social_links } }

/-- The `useEffect` that seeds `designerForm` from a fetched record
(`?? ""` on each optional field). -/
def seedDesignerForm (st : PageState) (d : DesignerRecord) : PageState :=
  { st with
      designerForm :=
        { contact_number := d.contact_number.getD "", address := d.address.getD "" } }

/-- The `useEffect` that seeds `portfolioForm` from a fetched record. -/
def seedPortfolioForm (st : PageState) (p : PortfolioRecord) : PageState :=
  { st with
      portfolioForm :=
        { title := p.title.getD ""
          description := p.description.getD ""
          specialization := p.specialization.getD ""
          skills := p.skills.getD []
          social_links := p.social_links.getD [] } }

/-- The alert text of a successful contact save. -/
def contactUpdatedMsg : String := "✅ Contact info updated"

/-- The alert text of a failed portfolio validation. -/
def portfolioWarningMsg : String := "⚠️ Please complete all portfolio fields before saving."

/-- The alert text of a successful portfolio save. -/
def portfolioSavedMsg : String := "✅ Portfolio saved"

/-- `saveContactInfo`: early-return when no designer record is loaded;
otherwise call `updateDesigner` with the raw form fields, leave edit mode and
alert. -/
def saveContactInfo (designerProfile : Option DesignerRecord) (st : PageState) : PageState :=
  match designerProfile with
  | none => st
  | some _ =>
      { st with
          sentMutations := st.sentMutations ++
            [Mutation.updateDesigner st.designerForm.contact_number st.designerForm.address]
          editContact := false
          alerts := st.alerts ++ [contactUpdatedMsg] }

/-- `savePortfolio`: early-return when no portfolio record is loaded; alert and
keep the state when a trimmed text field is empty or the skill list is empty;
otherwise call `updatePortfolio` with the five raw form fields, leave edit mode
and alert. -/
def savePortfolio (currentPortfolio : Option PortfolioRecord) (st : PageState) : PageState :=
  match currentPortfolio with
  | none => st
  | some _ =>
      if jsTrim st.portfolioForm.title = "" ∨ jsTrim st.portfolioForm.description = "" ∨
          jsTrim st.portfolioForm.specialization = "" ∨ st.portfolioForm.skills.length = 0 then
        { st with alerts := st.alerts ++ [portfolioWarningMsg] }
      else
        { st with
            sentMutations := st.sentMutations ++
              [Mutation.updatePortfolio st.portfolioForm.title st.portfolioForm.description
                st.portfolioForm.specialization st.portfolioForm.skills
                st.portfolioForm.social_links]
            editPortfolio := false
            alerts := st.alerts ++ [portfolioSavedMsg] }

/-! ## Emptiness checks of `Potfolio.tsx` -/

/-- JavaScript falsiness of an optional string field (`!x`): absent or `""`. -/
def optStrFalsy (o : Option String) : Bool :=
  match o with
  | none => true
  | some s => s == ""

/-- `(!xs || xs.length === 0)` on an optional list field. -/
def optListEmpty {α : Type} (o : Option (List α)) : Bool :=
  match o with
  | none => true
  | some l => l.length == 0

/-- `isPortfolioEmpty`: no record, or every one of the five content fields is
falsy/empty. -/
def isPortfolioEmpty (currentPortfolio : Option PortfolioRecord) : Bool :=
  match currentPortfolio with
  | none => true
  | some p =>
      optStrFalsy p.title && optStrFalsy p.description && optStrFalsy p.specialization &&
        optListEmpty p.skills && optListEmpty p.social_links

/-- `!x || x.trim().toLowerCase() === "na"` on one optional contact field. -/
def optStrEmptyOrNa (o : Option String) : Bool :=
  match o with
  | none => true
  | some s => s == "" || jsToLower (jsTrim s) == "na"

/-- `isContactInfoEmpty`: no designer record, or either contact field is falsy
or is the "na" sentinel after trim + lower-case. -/
def isContactInfoEmpty (designerProfile : Option DesignerRecord) : Bool :=
  match designerProfile with
  | none => true
  | some d => optStrEmptyOrNa d.contact_number || optStrEmptyOrNa d.address

/-! ## `ProjectsSection.tsx` -/

/-- The joined designer object a request row may carry. -/
structure DesignerJoin where
  full_name : String
deriving DecidableEq

/-- One element of the `requests` prop, with the fields the component reads. -/
structure RequestItem where
  id : String
  request_title : String
  status : String
  tshirt_type : Option String
  designer : Option DesignerJoin
deriving DecidableEq

/-- The visible content of one project card. -/
structure ProjectCard where
  key : String
  title : String
  statusBadge : String
  garmentType : Option String
  designerName : String
deriving DecidableEq

/-- The card rendered for one request; `designer?.full_name || "Unassigned"`
falls back on a missing designer or a falsy name. -/
def renderProjectCard (p : RequestItem) : ProjectCard :=
  { key := p.id
    title := p.request_title
    statusBadge := p.status
    garmentType := p.tshirt_type
    designerName :=
      match p.designer with
      | none => "Unassigned"
      | some d => if d.full_name = "" then "Unassigned" else d.full_name }

/-- The rendering decision of the component: empty-state call-to-action or a
grid of cards. -/
inductive ProjectsView where
  | emptyState
  | grid (cards : List ProjectCard)
deriving DecidableEq

/-- `ProjectsSection`: `if (!requests.length)` render the call-to-action, else
one card per request via `requests.map`. -/
def ProjectsSection (requests : List RequestItem) : ProjectsView :=
  if requests.length = 0 then ProjectsView.emptyState
  else ProjectsView.grid (requests.map renderProjectCard)

/-! ## Helper lemmas -/

/-- JavaScript falsiness of an optional string field, as a proposition. -/
theorem optStrFalsy_iff (o : Option String) :
    optStrFalsy o = true ↔ o = none ∨ o = some "" := by
  cases o <;> simp [optStrFalsy]

/-- Emptiness of an optional list field, as a proposition. -/
theorem optListEmpty_iff {α : Type} (o : Option (List α)) :
    optListEmpty o = true ↔ o = none ∨ o = some [] := by
  cases o with
  | none => simp [optListEmpty]
  | some l => simp [optListEmpty, List.length_eq_zero]

/-- The "`na` sentinel or falsy" test on one contact field, as a proposition. -/
theorem optStrEmptyOrNa_iff (o : Option String) :
    optStrEmptyOrNa o = true ↔
      o = none ∨ o = some "" ∨ ∃ s, o = some s ∧ jsToLower (jsTrim s) = "na" := by
  cases o with
  | none => simp [optStrEmptyOrNa]
  | some s => simp [optStrEmptyOrNa]

/-- The effect of `addSkill` on the skill list alone. -/
theorem addSkill_skills (st : PageState) :
    (addSkill st).portfolioForm.skills =
      if jsTrim st.newSkill ≠ "" ∧ jsTrim st.newSkill ∉ st.portfolioForm.skills then
        st.portfolioForm.skills ++ [jsTrim st.newSkill]
      else st.portfolioForm.skills := by
  unfold addSkill
  split <;> rfl

/-- Sample record with every optional field absent. -/
def emptyPortfolioRecord : PortfolioRecord :=
  { title := none, description := none, specialization := none, skills := none,
    social_links := none }

/-- Sample state whose portfolio form passes the save validation. -/
def completeFormState : PageState :=
  { initialState with
      portfolioForm :=
        { title := "T", description := "D", specialization := "S", skills := ["x"],
          social_links := [] } }

/-! ## Claims -/

/-- C1: with a current portfolio record loaded, `savePortfolio` only alerts the
warning and changes nothing else when one of the three trimmed text fields or
the skill list is empty; otherwise it issues exactly one `updatePortfolio`
mutation carrying the five raw form fields, clears the portfolio edit flag and
alerts the confirmation. -/
theorem savePortfolio_spec (p : PortfolioRecord) (st : PageState) :
    ((jsTrim st.portfolioForm.title = "" ∨ jsTrim st.portfolioForm.description = "" ∨
        jsTrim st.portfolioForm.specialization = "" ∨ st.portfolioForm.skills = []) →
      savePortfolio (some p) st = { st with alerts := st.alerts ++ [portfolioWarningMsg] }) ∧
    ((jsTrim st.portfolioForm.title ≠ "" ∧ jsTrim st.portfolioForm.description ≠ "" ∧
        jsTrim st.portfolioForm.specialization ≠ "" ∧ st.portfolioForm.skills ≠ []) →
      savePortfolio (some p) st =
        { st with
            sentMutations := st.sentMutations ++
              [Mutation.updatePortfolio st.portfolioForm.title st.portfolioForm.description
                st.portfolioForm.specialization st.portfolioForm.skills
                st.portfolioForm.social_links]
            editPortfolio := false
            alerts := st.alerts ++ [portfolioSavedMsg] }) := by
  constructor
  · intro h
    unfold savePortfolio
    rw [if_pos]
    rcases h with h | h | h | h
    · exact Or.inl h
    · exact Or.inr (Or.inl h)
    · exact Or.inr (Or.inr (Or.inl h))
    · exact Or.inr (Or.inr (Or.inr (by rw [h]; rfl)))
  · rintro ⟨h1, h2, h3, h4⟩
    unfold savePortfolio
    rw [if_neg]
    rintro (h | h | h | h)
    · exact h1 h
    · exact h2 h
    · exact h3 h
    · exact h4 (List.length_eq_zero.mp h)

/-- C1 witness: on the complete form the save exits edit mode and issues the
one mutation; on the initial (empty) form it only alerts the warning and keeps
the edit flag. -/
theorem savePortfolio_spec_witness :
    (savePortfolio (some emptyPortfolioRecord) completeFormState).editPortfolio = false ∧
    (savePortfolio (some emptyPortfolioRecord) completeFormState).sentMutations =
      [Mutation.updatePortfolio "T" "D" "S" ["x"] []] ∧
    (savePortfolio (some emptyPortfolioRecord) initialState).alerts = [portfolioWarningMsg] ∧
    (savePortfolio (some emptyPortfolioRecord) initialState).editPortfolio =
      initialState.editPortfolio := by
  have hs := (savePortfolio_spec emptyPortfolioRecord completeFormState).2 (by decide)
  have hf := (savePortfolio_spec emptyPortfolioRecord initialState).1 (by decide)
  rw [hs, hf]
  exact ⟨rfl, rfl, rfl, rfl⟩

/-- C2 counterexample: a designer record whose `contact_number` is the present
but empty string `""` (and whose address is an ordinary one) is classified
empty by the code, yet no disjunct of the claim's condition — record absent,
either field absent, or either field trimming/lower-casing to `"na"` — holds
there. -/
theorem isContactInfoEmpty_claim_cex :
    isContactInfoEmpty
        (some { contact_number := some "", address := some "Quezon City" }) = true ∧
    ¬ ((some (DesignerRecord.mk (some "") (some "Quezon City")) : Option DesignerRecord) = none ∨
        (some "" : Option String) = none ∨ (some "Quezon City" : Option String) = none ∨
        jsToLower (jsTrim "") = "na" ∨ jsToLower (jsTrim "Quezon City") = "na") := by
  decide

/-- C2 (amended): `isContactInfoEmpty` is true iff the designer record is
absent, or either contact field is absent or equal to the empty string, or
either contact field trims and lower-cases to the sentinel `"na"`. -/
theorem isContactInfoEmpty_iff (d : Option DesignerRecord) :
    isContactInfoEmpty d = true ↔
      d = none ∨ ∃ r, d = some r ∧
        (r.contact_number = none ∨ r.contact_number = some "" ∨
          (∃ c, r.contact_number = some c ∧ jsToLower (jsTrim c) = "na") ∨
          r.address = none ∨ r.address = some "" ∨
          (∃ a, r.address = some a ∧ jsToLower (jsTrim a) = "na")) := by
  cases d with
  | none => simp [isContactInfoEmpty]
  | some r =>
    simp only [isContactInfoEmpty, Bool.or_eq_true, optStrEmptyOrNa_iff]
    simp [or_assoc]

/-- C7: `isPortfolioEmpty` is true iff the record is absent or each of the
five content fields is absent or empty. -/
theorem isPortfolioEmpty_iff (p : Option PortfolioRecord) :
    isPortfolioEmpty p = true ↔
      p = none ∨ ∃ r, p = some r ∧
        ((r.title = none ∨ r.title = some "") ∧
          (r.description = none ∨ r.description = some "") ∧
          (r.specialization = none ∨ r.specialization = some "") ∧
          (r.skills = none ∨ r.skills = some []) ∧
          (r.social_links = none ∨ r.social_links = some [])) := by
  cases p with
  | none => simp [isPortfolioEmpty]
  | some r =>
    simp [isPortfolioEmpty, Bool.and_eq_true, optStrFalsy_iff, optListEmpty_iff, and_assoc]

/-- Sample state seeded from a stored record whose skill list already holds a
duplicate. -/
def dupSkillsState : PageState :=
  seedPortfolioForm initialState
    { title := none, description := none, specialization := none,
      skills := some ["x", "x"], social_links := none }

/-- C3 counterexample: with the form seeded from a record already holding
`["x", "x"]`, adding `"x"` twice leaves two occurrences; and on the initial
form, adding the whitespace-only input `"  "` twice leaves zero occurrences
of its trim `""`. -/
theorem addSkill_twice_once_cex :
    (addSkill (setNewSkill (addSkill
        (setNewSkill dupSkillsState "x")) "x")).portfolioForm.skills.count (jsTrim "x") = 2 ∧
    (addSkill (setNewSkill (addSkill
        (setNewSkill initialState "  ")) "  ")).portfolioForm.skills.count (jsTrim "  ") = 0 := by
  decide

/-- C3 (amended): for an input whose trim is non-empty, and a form state whose
skill list holds at most one occurrence of that trim, entering the input and
clicking add twice in succession leaves exactly one occurrence of the trimmed
string. -/
theorem addSkill_twice_once (st : PageState) (s : String)
    (h1 : jsTrim s ≠ "")
    (h2 : st.portfolioForm.skills.count (jsTrim s) ≤ 1) :
    (addSkill (setNewSkill (addSkill
        (setNewSkill st s)) s)).portfolioForm.skills.count (jsTrim s) = 1 := by
  have e1 : (addSkill (setNewSkill st s)).portfolioForm.skills =
      if jsTrim s ≠ "" ∧ jsTrim s ∉ st.portfolioForm.skills then
        st.portfolioForm.skills ++ [jsTrim s]
      else st.portfolioForm.skills := addSkill_skills (setNewSkill st s)
  have e2 : (addSkill (setNewSkill (addSkill (setNewSkill st s)) s)).portfolioForm.skills =
      if jsTrim s ≠ "" ∧ jsTrim s ∉ (addSkill (setNewSkill st s)).portfolioForm.skills then
        (addSkill (setNewSkill st s)).portfolioForm.skills ++ [jsTrim s]
      else (addSkill (setNewSkill st s)).portfolioForm.skills :=
    addSkill_skills (setNewSkill (addSkill (setNewSkill st s)) s)
  by_cases hm : jsTrim s ∈ st.portfolioForm.skills
  · rw [if_neg (by tauto)] at e1
    rw [e1] at e2
    rw [if_neg (by tauto)] at e2
    rw [e2]
    exact Nat.le_antisymm h2 (List.count_pos_iff.mpr hm)
  · rw [if_pos ⟨h1, hm⟩] at e1
    rw [e1] at e2
    rw [if_neg] at e2
    · rw [e2, List.count_append, List.count_eq_zero.mpr hm]
      simp
    · rintro ⟨-, hn⟩
      exact hn (List.mem_append_right _ (List.mem_singleton.mpr rfl))

/-- C3 witness: on the initial (empty) form, adding `" x "` twice leaves
exactly one occurrence of `"x"`. -/
theorem addSkill_twice_once_witness :
    (addSkill (setNewSkill (addSkill
        (setNewSkill initialState " x ")) " x ")).portfolioForm.skills.count (jsTrim " x ") = 1 :=
  addSkill_twice_once initialState " x " (by decide) (by decide)

/-- C4: `addSkill` is a no-op when the trimmed input is empty or already a
member of the skill list (case-sensitive exact match); otherwise it appends
the trimmed input at the end, keeping the prior list intact. -/
theorem addSkill_spec (st : PageState) :
    ((jsTrim st.newSkill = "" ∨ jsTrim st.newSkill ∈ st.portfolioForm.skills) →
      addSkill st = st) ∧
    ((jsTrim st.newSkill ≠ "" ∧ jsTrim st.newSkill ∉ st.portfolioForm.skills) →
      (addSkill st).portfolioForm.skills =
        st.portfolioForm.skills ++ [jsTrim st.newSkill]) := by
  constructor
  · intro h
    unfold addSkill
    rw [if_neg]
    rintro ⟨hne, hnm⟩
    rcases h with h | h
    · exact hne h
    · exact hnm h
  · intro h
    unfold addSkill
    rw [if_pos h]

/-- C4 witness: a duplicate input leaves the state untouched, and a fresh
input ends up appended in trimmed form. -/
theorem addSkill_spec_witness :
    addSkill (setNewSkill dupSkillsState "x") = setNewSkill dupSkillsState "x" ∧
    (addSkill (setNewSkill initialState " Figma ")).portfolioForm.skills = ["Figma"] := by
  constructor
  · exact (addSkill_spec (setNewSkill dupSkillsState "x")).1 (by decide)
  · have h := (addSkill_spec (setNewSkill initialState " Figma ")).2 (by decide)
    rw [h]
    decide

/-- C5: `addSocialLink` is a no-op when either pending field is blank after
trimming; when both are non-empty after trimming it appends the trimmed
(platform, url) pair at the end of `social_links`. -/
theorem addSocialLink_spec (st : PageState) :
    ((jsTrim st.newSocial.platform = "" ∨ jsTrim st.newSocial.url = "") →
      addSocialLink st = st) ∧
    ((jsTrim st.newSocial.platform ≠ "" ∧ jsTrim st.newSocial.url ≠ "") →
      (addSocialLink st).portfolioForm.social_links =
        st.portfolioForm.social_links ++
          [{ platform := jsTrim st.newSocial.platform, url := jsTrim st.newSocial.url }]) := by
  constructor
  · intro h
    unfold addSocialLink
    rw [if_neg]
    rintro ⟨hp, hu⟩
    rcases h with h | h
    · exact hp h
    · exact hu h
  · intro h
    unfold addSocialLink
    rw [if_pos h]

/-- C5 witness: a blank platform makes the add a no-op, and two non-blank
fields end up appended as a trimmed pair. -/
theorem addSocialLink_spec_witness :
    addSocialLink (setNewSocial initialState "  " "https://a.example") =
      setNewSocial initialState "  " "https://a.example" ∧
    (addSocialLink (setNewSocial initialState " IG "
        " https://ig.example/u ")).portfolioForm.social_links =
      [{ platform := "IG", url := "https://ig.example/u" }] := by
  constructor
  · exact (addSocialLink_spec (setNewSocial initialState "  " "https://a.example")).1 (by decide)
  · have h := (addSocialLink_spec (setNewSocial initialState " IG "
        " https://ig.example/u ")).2 (by decide)
    rw [h]
    decide

/-- `filterIdxNe` keeps a whole list once the running position has passed the
target index. -/
theorem filterIdxNe_gt {α : Type} (l : List α) (i n : Nat) (h : i < n) :
    filterIdxNe i n l = l := by
  induction l generalizing n with
  | nil => rfl
  | cons a as ih =>
    unfold filterIdxNe
    rw [if_pos (by omega), ih (n + 1) (by omega)]

/-- `filterIdxNe` with target `i + n` and running position `n` erases
position `i`. -/
theorem filterIdxNe_eq_eraseIdx {α : Type} (l : List α) (i n : Nat) :
    filterIdxNe (i + n) n l = l.eraseIdx i := by
  induction l generalizing i n with
  | nil => cases i <;> rfl
  | cons a as ih =>
    cases i with
    | zero =>
      unfold filterIdxNe
      rw [if_neg (by omega), Nat.zero_add]
      exact filterIdxNe_gt as n (n + 1) (by omega)
    | succ j =>
      unfold filterIdxNe
      rw [if_pos (by omega), show j + 1 + n = j + (n + 1) by omega, ih j (n + 1)]
      rfl

/-- The index-keyed filter starting at position 0 is take-and-drop around the
index. -/
theorem filterIdxNe_zero_eq {α : Type} (l : List α) (i : Nat) :
    filterIdxNe i 0 l = l.take i ++ l.drop (i + 1) := by
  have h := filterIdxNe_eq_eraseIdx l i 0
  rw [Nat.add_zero] at h
  rw [h, List.eraseIdx_eq_take_drop_succ]

/-- C6: `removeSocialLink i` removes exactly the element at position `i` of
the list at call time, keeping every other element in its original relative
order (and leaving the rest of the state alone). -/
theorem removeSocialLink_spec (st : PageState) (i : Nat) :
    removeSocialLink st i =
      { st with
          portfolioForm := { st.portfolioForm with
            social_links :=
              st.portfolioForm.social_links.take i ++
                st.portfolioForm.social_links.drop (i + 1) } } := by
  unfold removeSocialLink
  rw [filterIdxNe_zero_eq]

/-- C8: with a designer record loaded, `saveContactInfo` unconditionally
issues one `updateDesigner` mutation carrying the raw form fields (no
validation), clears the contact edit flag and alerts the confirmation. -/
theorem saveContactInfo_spec (d : DesignerRecord) (st : PageState) :
    saveContactInfo (some d) st =
      { st with
          sentMutations := st.sentMutations ++
            [Mutation.updateDesigner st.designerForm.contact_number st.designerForm.address]
          editContact := false
          alerts := st.alerts ++ [contactUpdatedMsg] } := rfl

/-- C10: with no backing record loaded, both saves are silent no-ops: no
mutation, no alert, and every flag and form field unchanged. -/
theorem save_missing_record_noop (st : PageState) :
    saveContactInfo none st = st ∧ savePortfolio none st = st := ⟨rfl, rfl⟩

/-- C9: an empty request collection renders the call-to-action; a non-empty
one renders one card per request in input order, each showing the request's
title, status and garment type, with designer name falling back to
`"Unassigned"` when the designer is absent. -/
theorem projectsSection_spec (requests : List RequestItem) :
    (requests = [] → ProjectsSection requests = ProjectsView.emptyState) ∧
    (requests ≠ [] → ∃ cards : List ProjectCard,
      ProjectsSection requests = ProjectsView.grid cards ∧
      cards.length = requests.length ∧
      ∀ i, i < requests.length → ∃ r c,
        requests[i]? = some r ∧ cards[i]? = some c ∧
        c.title = r.request_title ∧ c.statusBadge = r.status ∧
        c.garmentType = r.tshirt_type ∧
        (r.designer = none → c.designerName = "Unassigned") ∧
        (∀ d, r.designer = some d → d.full_name ≠ "" → c.designerName = d.full_name)) := by
  constructor
  · intro h
    subst h
    rfl
  · intro h
    refine ⟨requests.map renderProjectCard, ?_, by simp, ?_⟩
    · unfold ProjectsSection
      rw [if_neg]
      simpa [List.length_eq_zero] using h
    · intro i hi
      refine ⟨requests[i], renderProjectCard requests[i],
        List.getElem?_eq_getElem hi, ?_, rfl, rfl, rfl, ?_, ?_⟩
      · simp [List.getElem?_map, List.getElem?_eq_getElem hi]
      · intro hd
        simp [renderProjectCard, hd]
      · intro d hd hne
        simp [renderProjectCard, hd, hne]

/-- Sample request collection: one unassigned request and one with a
designer. -/
def sampleRequests : List RequestItem :=
  [{ id := "r1", request_title := "Team jersey", status := "pending",
     tshirt_type := some "jersey", designer := none },
   { id := "r2", request_title := "Fun run shirt", status := "approved",
     tshirt_type := some "tshirt", designer := some { full_name := "Ana Cruz" } }]

/-- C9 witness: the empty collection renders the call-to-action, and the
two-element sample renders a grid of exactly two cards. -/
theorem projectsSection_spec_witness :
    ProjectsSection ([] : List RequestItem) = ProjectsView.emptyState ∧
    ∃ cards : List ProjectCard,
      ProjectsSection sampleRequests = ProjectsView.grid cards ∧ cards.length = 2 := by
  constructor
  · exact (projectsSection_spec []).1 rfl
  · obtain ⟨cards, hg, hl, -⟩ := (projectsSection_spec sampleRequests).2 (by decide)
    exact ⟨cards, hg, by rw [hl]; rfl⟩

end Tuttifrutti
